import Mathlib

/-!
# Verification of the Debit_Note processing and reconciliation core

A shallow embedding of the repository's core table operations:

* `data_processor.py` — `clean_currency_column`, `clean_age_column`, `process_excel`;
* `data_verifier.py` — `compare_dataframes`, `get_detailed_mismatches`, `get_value_comparison`;
* `config.py` — `COLUMNS_TO_DROP`, `FINAL_COLUMNS`, `REQUIRED_INPUT_COLUMNS`.

A pandas `DataFrame` is modelled as a list of column names together with a
list of rows, each row an association list from column name to cell value.
Cell values are dynamically typed (string, number, or the NaN missing
marker); numbers are modelled as exact rationals, the usual idealisation of
Python floats.  Operations that raise `KeyError` in pandas (column access on
a missing column) are modelled with `Option`.
-/

namespace DebitNote

/-- A cell of a pandas DataFrame: a string, a number (Python float/int,
idealised as an exact rational), or the missing marker (NaN). -/
inductive Value where
  | str (s : String)
  | num (x : Rat)
  | missing
deriving DecidableEq

/-- A row: an association list from column name to cell value. -/
abbrev Row := List (String × Value)

/-- Cell access on a row.  On the columns the model manipulates, the key is
always present; the `.missing` default mirrors NaN for absent cells. -/
def Row.get (r : Row) (c : String) : Value :=
  (List.lookup c r).getD Value.missing

/-- Cell access with an explicit default, modelling `row.get(col, default)`
in `get_detailed_mismatches` (pandas `Series.get` with a fallback). -/
def Row.getWithDefault (r : Row) (c : String) (d : Value) : Value :=
  (List.lookup c r).getD d

/-- Update (or append) the binding of column `c` in a row. -/
def Row.set : Row → String → Value → Row
  | [], c, v => [(c, v)]
  | (k, w) :: r, c, v =>
    if k = c then (k, v) :: r else (k, w) :: Row.set r c v

/-- Remove the bindings of all columns in `cs` from a row. -/
def Row.dropKeys (r : Row) (cs : List String) : Row :=
  r.filter (fun p => decide (p.1 ∉ cs))

/-- A pandas DataFrame: an ordered column schema and a list of rows. -/
structure DataFrame where
  cols : List String
  rows : List Row
deriving DecidableEq

/-- `df[mask]` row filtering: keep the rows satisfying the predicate. -/
def DataFrame.filterRows (df : DataFrame) (p : Row → Bool) : DataFrame :=
  ⟨df.cols, df.rows.filter p⟩

/-- `df.drop(columns=[c for c in cs if c in df.columns])`: remove the
columns of `cs` that are present; absent names are not an error. -/
def DataFrame.dropCols (df : DataFrame) (cs : List String) : DataFrame :=
  ⟨df.cols.filter (fun c => decide (c ∉ cs)),
   df.rows.map (fun r => r.dropKeys cs)⟩

/-- `df[c] = <series derived row-wise from df>`: assign column `c`,
appending it to the schema when new. -/
def DataFrame.setCol (df : DataFrame) (c : String) (f : Row → Value) : DataFrame :=
  ⟨if c ∈ df.cols then df.cols else df.cols ++ [c],
   df.rows.map (fun r => r.set c (f r))⟩

/-- `df[cs]` column projection, in the order of `cs`; raises `KeyError`
(modelled as `none`) when a requested column is absent. -/
def DataFrame.select (df : DataFrame) (cs : List String) : Option DataFrame :=
  if cs.all (fun c => decide (c ∈ df.cols)) then
    some ⟨cs, df.rows.map (fun r => cs.map (fun c => (c, r.get c)))⟩
  else none

/-! ## String helpers

Python-level string primitives (`str.replace`, `str.strip`, `float`/
`pd.to_numeric` parsing) rebuilt structurally so that every definition
evaluates inside the kernel. -/

/-- One pass of Python `str.replace(pat, rep)` over a character list,
replacing non-overlapping occurrences left to right.  The fuel argument
(always instantiated with the input length) makes the recursion
structural; each step consumes at least one character, so the fuel never
runs out on the instantiations used. -/
def replaceFuel (pat rep : List Char) : Nat → List Char → List Char
  | 0, l => l
  | fuel + 1, l =>
    match l with
    | [] => []
    | c :: rest =>
      if pat ≠ [] ∧ pat.isPrefixOf (c :: rest) then
        rep ++ replaceFuel pat rep fuel (rest.drop (pat.length - 1))
      else
        c :: replaceFuel pat rep fuel rest

/-- Python `s.replace(pat, rep)` (plain, non-regex replacement, as in the
`regex=False` calls of `data_processor.py`). -/
def pyReplace (s pat rep : String) : String :=
  ⟨replaceFuel pat.data rep.data s.data.length s.data⟩

/-- Python `s.strip()` / pandas `.str.strip()`: remove leading and trailing
whitespace. -/
def pyStrip (s : String) : String :=
  ⟨((s.data.dropWhile Char.isWhitespace).reverse.dropWhile Char.isWhitespace).reverse⟩

/-- Decimal digit list to natural number. -/
def digitsToNat (l : List Char) : Nat :=
  l.foldl (fun a c => a * 10 + (c.toNat - 48)) 0

/-- Parse an unsigned decimal numeral (digits, optionally with a single
decimal point; at least one digit somewhere), as accepted by
`pd.to_numeric` / Python `float` on the inputs this pipeline sees.
Exponents and the special words `inf`/`nan` are not modelled; the
repository's data never uses them. -/
def parseUnsigned (l : List Char) : Option Rat :=
  let intPart := l.takeWhile Char.isDigit
  let rest := l.dropWhile Char.isDigit
  match rest with
  | [] => if intPart.isEmpty then none else some (digitsToNat intPart : Nat)
  | '.' :: frac =>
    if frac.all Char.isDigit ∧ (intPart.length + frac.length ≠ 0) then
      some ((digitsToNat intPart : Nat) +
        (digitsToNat frac : Nat) / ((10 : Rat) ^ frac.length))
    else none
  | _ => none

/-- Parse an optionally signed decimal numeral. -/
def parseSigned (l : List Char) : Option Rat :=
  match l with
  | '-' :: r => (parseUnsigned r).map (fun x => -x)
  | '+' :: r => parseUnsigned r
  | _ => parseUnsigned l

/-- `pd.to_numeric(s, errors="coerce")` on a single string cell: parse a
decimal number, `none` (coerced to NaN) when unparsable.  Surrounding
whitespace is tolerated, as in pandas. -/
def toNumeric? (s : String) : Option Rat :=
  parseSigned (pyStrip s).data

/-! ## Value-level operations -/

/-- Kernel-evaluable rendering of a natural number (fuel-structural). -/
def natToStrAux : Nat → Nat → List Char
  | 0, _ => []
  | _ + 1, 0 => []
  | fuel + 1, n => natToStrAux fuel (n / 10) ++ [Char.ofNat (48 + n % 10)]

/-- Decimal rendering of a natural number. -/
def natToStr (n : Nat) : String :=
  if n = 0 then "0" else ⟨natToStrAux (n + 1) n⟩

/-- Decimal rendering of an integer. -/
def intToStr (i : Int) : String :=
  if i < 0 then "-" ++ natToStr i.natAbs else natToStr i.natAbs

/-- `series.astype(str)` on one cell.  Strings are unchanged and NaN
renders as `"nan"`, exactly as in pandas.  Numeric cells get a canonical
decimal rendering; the claims under verification only ever apply this to
string or missing cells, so the fine points of Python float formatting are
not modelled. -/
def Value.astypeStr : Value → String
  | .str s => s
  | .num x => intToStr x.num ++ (if x.den = 1 then ".0" else "/" ++ natToStr x.den)
  | .missing => "nan"

/-- `pd.notna` on one cell. -/
def Value.notna : Value → Bool
  | .missing => false
  | _ => true

/-- `Series.fillna(0)` on one cell. -/
def fillna0 : Value → Value
  | .missing => .num 0
  | v => v

/-- The literal that `clean_currency_column` removes.  The source file
contains the mojibake three-character string `"â‚¹"` (the UTF-8 bytes of
`"₹"` mis-decoded as cp1252), not the rupee sign itself. -/
def rupeeLiteral : String := "â‚¹"

/-- `clean_currency_column` of `data_processor.py`, acting on one cell:
`astype(str)`, remove the (mojibake) rupee literal and commas, strip,
then `pd.to_numeric(..., errors="coerce")`. -/
def clean_currency_column (v : Value) : Value :=
  match toNumeric? (pyStrip (pyReplace (pyReplace v.astypeStr rupeeLiteral "") "," "")) with
  | some x => .num x
  | none => .missing

/-- `clean_age_column` of `data_processor.py`, acting on one cell: remove
the text `" Days"`, strip, then `pd.to_numeric(..., errors="coerce")`. -/
def clean_age_column (v : Value) : Value :=
  match toNumeric? (pyStrip (pyReplace v.astypeStr " Days" "")) with
  | some x => .num x
  | none => .missing

/-- `cell > t` as used in the `Age > due_days` mask: true only for a
numeric cell strictly above the threshold; NaN compares false. -/
def valGt (v : Value) (t : Rat) : Bool :=
  match v with
  | .num x => decide (t < x)
  | _ => false

/-- Pointwise subtraction of cells; NaN propagates. -/
def Value.sub : Value → Value → Value
  | .num a, .num b => .num (a - b)
  | _, _ => .missing

/-- Pointwise multiplication of cells; NaN propagates. -/
def Value.mul : Value → Value → Value
  | .num a, .num b => .num (a * b)
  | _, _ => .missing

/-- Pointwise division of cells; NaN propagates.  In the pipeline the
divisor is the constant 100. -/
def Value.div : Value → Value → Value
  | .num a, .num b => .num (a / b)
  | _, _ => .missing

/-- `Series.clip(lower=lo)` on one cell. -/
def Value.clipLower (v : Value) (lo : Rat) : Value :=
  match v with
  | .num x => .num (max x lo)
  | w => w

/-- Round half to even at integer precision (the rounding used by
`Series.round` / numpy and by Python's `round`). -/
def roundHalfEven (x : Rat) : Int :=
  let f := ⌊x⌋
  let frac := x - (f : Rat)
  if frac < 1 / 2 then f
  else if 1 / 2 < frac then f + 1
  else if f % 2 = 0 then f else f + 1

/-- Round to 4 decimal places, half to even (`Series.round(4)` /
Python `round(x, 4)`). -/
def round4 (x : Rat) : Rat :=
  (roundHalfEven (x * 10000) : Rat) / 10000

/-- `Series.round(4)` on one cell; NaN stays NaN. -/
def Value.round4V : Value → Value
  | .num x => .num (round4 x)
  | v => v

/-! ## Configuration (`config.py`) -/

/-- `COLUMNS_TO_DROP` of `config.py`. -/
def COLUMNS_TO_DROP : List String := ["Sales person", "Sale Person"]

/-- `FINAL_COLUMNS` of `config.py`: the fixed 19-column output schema. -/
def FINAL_COLUMNS : List String :=
  ["Region", "Area Name", "Market", "Customer Name", "Customer Number",
   "DATE", "Transaction#", "Type", "Status", "Due Date", "Amount",
   "Balance Due", "Age", "Due days", "Previous interst", "interst working",
   "per day interst%", "working interst in %", "interest amount"]

/-- `REQUIRED_INPUT_COLUMNS` of `config.py`: the 13 required input columns. -/
def REQUIRED_INPUT_COLUMNS : List String :=
  ["Region", "Area Name", "Market", "Customer Name", "Customer Number",
   "DATE", "Transaction#", "Type", "Status", "Due Date", "Amount",
   "Balance Due", "Age"]

/-! ## The transformer (`process_excel` of `data_processor.py`) -/

/-- The `sort_values("Customer Name")` key of a row. -/
def sortKey (r : Row) : String :=
  (r.get "Customer Name").astypeStr

/-- Code-point lexicographic `≤` on character lists (Python string order). -/
def strLeList : List Char → List Char → Bool
  | [], _ => true
  | _ :: _, [] => false
  | a :: as, b :: bs =>
    if a < b then true else if b < a then false else strLeList as bs

/-- Code-point lexicographic, case-sensitive `≤` on strings. -/
def strLe (a b : String) : Bool :=
  strLeList a.data b.data

/-- Insert a row into a list sorted by `sortKey` (before any row with an
equal key that was inserted earlier). -/
def orderedInsertRow (x : Row) : List Row → List Row
  | [] => [x]
  | y :: ys => if strLe (sortKey x) (sortKey y) then x :: y :: ys
               else y :: orderedInsertRow x ys

/-- Sorting the rows by `sortKey`.  This models
`df.sort_values("Customer Name").reset_index(drop=True)` by a
deterministic comparison sort on the Customer Name key. -/
def insertionSortRows : List Row → List Row
  | [] => []
  | x :: xs => orderedInsertRow x (insertionSortRows xs)

/-- `df.sort_values("Customer Name").reset_index(drop=True)`. -/
def DataFrame.sortByCustomer (df : DataFrame) : DataFrame :=
  ⟨df.cols, insertionSortRows df.rows⟩

/-- Lines 44–50 of `data_processor.py`:
`df_filtered = df[df["Status"] == "Overdue"].copy()` followed by
`df_filtered = df_filtered.drop(columns=[c for c in COLUMNS_TO_DROP if c in ...])`. -/
def filterOverdueDrop (df : DataFrame) : DataFrame :=
  (df.filterRows (fun r => r.get "Status" == Value.str "Overdue")).dropCols COLUMNS_TO_DROP

/-- `df_filtered["Balance Due"] = clean_currency_column(df_filtered["Balance Due"]).fillna(0)`. -/
def cleanBalanceDue (df : DataFrame) : DataFrame :=
  df.setCol "Balance Due" (fun r => fillna0 (clean_currency_column (r.get "Balance Due")))

/-- `df_filtered["Amount"] = clean_currency_column(df_filtered["Amount"])`. -/
def cleanAmount (df : DataFrame) : DataFrame :=
  df.setCol "Amount" (fun r => clean_currency_column (r.get "Amount"))

/-- `df_filtered["Age"] = clean_age_column(df_filtered["Age"])`. -/
def cleanAge (df : DataFrame) : DataFrame :=
  df.setCol "Age" (fun r => clean_age_column (r.get "Age"))

/-- `df_filtered.loc[df_filtered["Type"] == "Customer Opening Balance", "Age"] = ob_age`:
rows whose Type matches get Age overwritten; all other rows keep their Age. -/
def overrideOpeningBalanceAge (ob_age : Rat) (df : DataFrame) : DataFrame :=
  df.setCol "Age" (fun r =>
    if r.get "Type" == Value.str "Customer Opening Balance" then Value.num ob_age
    else r.get "Age")

/-- The row-level effect of the seven derived-column assignments of
`process_excel` (lines 72–100 of `data_processor.py`), in source order;
each assignment reads from the state left by the previous one. -/
def deriveRow (due_days daily_rate : Rat) (r : Row) : Row :=
  -- df_filtered["Due days"] = due_days
  let r1 := r.set "Due days" (Value.num due_days)
  -- df_filtered["interst working"] = df_filtered["Age"] - due_days
  let r2 := r1.set "interst working" ((r1.get "Age").sub (Value.num due_days))
  -- df_filtered["Previous interst"] =
  --   (df_filtered["Age"] - due_days - df_filtered["interst working"]).clip(lower=0)
  let r3 := r2.set "Previous interst"
    ((((r2.get "Age").sub (Value.num due_days)).sub (r2.get "interst working")).clipLower 0)
  -- df_filtered["per day interst%"] = daily_rate
  let r4 := r3.set "per day interst%" (Value.num daily_rate)
  -- df_filtered["working interst in %"] = df_filtered["interst working"] * daily_rate
  let r5 := r4.set "working interst in %" ((r4.get "interst working").mul (Value.num daily_rate))
  -- df_filtered["interest amount"] =
  --   df_filtered["Balance Due"] * (df_filtered["working interst in %"] / 100)
  let r6 := r5.set "interest amount"
    ((r5.get "Balance Due").mul ((r5.get "working interst in %").div (Value.num 100)))
  -- df_filtered["interest amount"] = df_filtered["interest amount"].round(4)
  r6.set "interest amount" ((r6.get "interest amount").round4V)

/-- The seven derived-column assignments applied to the frame: the schema
grows by the six new column names in assignment order, and every row is
transformed by `deriveRow`. -/
def deriveColumns (due_days daily_rate : Rat) (df : DataFrame) : DataFrame :=
  ((((((df.setCol "Due days" (fun _ => Value.num due_days)).setCol
    "interst working" (fun r => (r.get "Age").sub (Value.num due_days))).setCol
    "Previous interst" (fun r => (((r.get "Age").sub (Value.num due_days)).sub
      (r.get "interst working")).clipLower 0)).setCol
    "per day interst%" (fun _ => Value.num daily_rate)).setCol
    "working interst in %" (fun r => (r.get "interst working").mul (Value.num daily_rate))).setCol
    "interest amount" (fun r => (r.get "Balance Due").mul
      ((r.get "working interst in %").div (Value.num 100)))).setCol
    "interest amount" (fun r => (r.get "interest amount").round4V)

/-- `process_excel(df, due_days, daily_rate, working_days, ob_age)` of
`data_processor.py`, step by step in source order.  Each pandas column
access that can raise `KeyError` is guarded and returns `none` in the
error case.  Note that `working_days` is accepted but never used, exactly
as in the source (its docstring advertises it as a cap on the interest
working days, but no cap is ever applied). -/
def process_excel (df : DataFrame) (due_days daily_rate : Rat)
    (working_days ob_age : Rat) : Option DataFrame :=
  if "Status" ∈ df.cols then
    let dfA := filterOverdueDrop df
    if "Balance Due" ∈ dfA.cols then
      let dfB := cleanBalanceDue dfA
      if "Amount" ∈ dfB.cols then
        let dfC := cleanAmount dfB
        if "Age" ∈ dfC.cols then
          let dfD := cleanAge dfC
          if "Type" ∈ dfD.cols then
            let dfE := overrideOpeningBalanceAge ob_age dfD
            -- df_filtered = df_filtered[df_filtered["Age"] > due_days].copy()
            let dfF := dfE.filterRows (fun r => valGt (r.get "Age") due_days)
            -- df_filtered = df_filtered.sort_values("Customer Name").reset_index(drop=True)
            if "Customer Name" ∈ dfF.cols then
              -- derived columns, then: return df_filtered[FINAL_COLUMNS]
              (deriveColumns due_days daily_rate dfF.sortByCustomer).select FINAL_COLUMNS
            else none
          else none
        else none
      else none
    else none
  else none

/-! ## The reconciler (`data_verifier.py`) -/

/-- The dictionary built by `compare_dataframes`, flattened into a record:
row counts and their signed difference, column lists and set comparisons,
optional customer-set differences, and the summary counts. -/
structure CompareResults where
  processed_rows : Nat
  expected_rows : Nat
  row_difference : Int
  processed_columns : List String
  expected_columns : List String
  extra_cols_in_processed : List String
  missing_cols_in_processed : List String
  columns_match : Bool
  extra_in_processed : Option (List Value)
  missing_in_processed : Option (List Value)
  summary_extra_customers : Nat
  summary_missing_customers : Nat
deriving DecidableEq

/-- `compare_dataframes(processed_df, expected_df)` of `data_verifier.py`.
Python `set` differences are modelled as duplicate-free lists in first-
appearance order (set iteration order is unspecified in Python; no claim
depends on it).  The customer differences are `None` unless both frames
have a `Customer Name` column.  The summary counts render `None` and the
empty list as 0, mirroring `len(x) if x else 0`. -/
def compare_dataframes (processed expected : DataFrame) : CompareResults :=
  let extraCust :=
    if "Customer Name" ∈ processed.cols ∧ "Customer Name" ∈ expected.cols then
      some (((processed.rows.map (fun r => r.get "Customer Name")).dedup).filter
        (fun v => decide (v ∉ (expected.rows.map (fun r => r.get "Customer Name")).dedup)))
    else none
  let missingCust :=
    if "Customer Name" ∈ processed.cols ∧ "Customer Name" ∈ expected.cols then
      some (((expected.rows.map (fun r => r.get "Customer Name")).dedup).filter
        (fun v => decide (v ∉ (processed.rows.map (fun r => r.get "Customer Name")).dedup)))
    else none
  { processed_rows := processed.rows.length
    expected_rows := expected.rows.length
    row_difference := (processed.rows.length : Int) - (expected.rows.length : Int)
    processed_columns := processed.cols
    expected_columns := expected.cols
    extra_cols_in_processed := (processed.cols.filter (fun c => decide (c ∉ expected.cols))).dedup
    missing_cols_in_processed := (expected.cols.filter (fun c => decide (c ∉ processed.cols))).dedup
    columns_match := processed.cols.all (fun c => decide (c ∈ expected.cols)) &&
      expected.cols.all (fun c => decide (c ∈ processed.cols))
    extra_in_processed := extraCust
    missing_in_processed := missingCust
    summary_extra_customers := (extraCust.map List.length).getD 0
    summary_missing_customers := (missingCust.map List.length).getD 0 }

/-- The default key columns of `get_detailed_mismatches` and the fixed key
columns of `get_value_comparison`. -/
def defaultKeyColumns : List String := ["Customer Name", "Transaction#"]

/-- The default compare columns of `get_value_comparison`. -/
def defaultCompareColumns : List String := ["interest amount", "Balance Due", "Age"]

/-- `proc_df[key_columns].astype(str).agg("||".join, axis=1)` on one row:
the composite key. -/
def compositeKey (key_columns : List String) (r : Row) : String :=
  String.intercalate "||" (key_columns.map (fun c => (r.get c).astypeStr))

/-- Adding the `_composite_key` column to (a copy of) a frame. -/
def addCompositeKey (key_columns : List String) (df : DataFrame) : DataFrame :=
  df.setCol "_composite_key" (fun r => .str (compositeKey key_columns r))

/-- One record of the mismatch report built by `get_detailed_mismatches`. -/
structure MismatchRecord where
  mismatchType : String
  customerName : Value
  transactionId : Value
  rowType : Value
  age : Value
  balanceDue : Value
  interestAmount : Value
deriving DecidableEq

/-- The dictionary appended for one row by `get_detailed_mismatches`:
each field is `row.get(col, "N/A")`. -/
def mkMismatchRecord (t : String) (r : Row) : MismatchRecord :=
  ⟨t,
   r.getWithDefault "Customer Name" (.str "N/A"),
   r.getWithDefault "Transaction#" (.str "N/A"),
   r.getWithDefault "Type" (.str "N/A"),
   r.getWithDefault "Age" (.str "N/A"),
   r.getWithDefault "Balance Due" (.str "N/A"),
   r.getWithDefault "interest amount" (.str "N/A")⟩

/-- The three possible returns of `get_detailed_mismatches`: the error
frame naming a missing key column, the mismatch table, or the
"No mismatches found!" message frame. -/
inductive MismatchOutcome where
  | keyColumnError (col : String)
  | mismatches (records : List MismatchRecord)
  | noMismatch
deriving DecidableEq

/-- The mismatch records computed by `get_detailed_mismatches` from the
two keyed copies: "Extra in Processed" records for processed rows whose
`_composite_key` does not occur among the expected keys (`~isin`), in row
order, followed by the symmetric "Missing in Processed" records. -/
def mismatchRecordsFrom (proc_df exp_df : DataFrame) : List MismatchRecord :=
  let procKeys := proc_df.rows.map (fun r => r.get "_composite_key")
  let expKeys := exp_df.rows.map (fun r => r.get "_composite_key")
  (proc_df.rows.filter (fun r => decide (r.get "_composite_key" ∉ expKeys))).map
    (mkMismatchRecord "Extra in Processed") ++
  (exp_df.rows.filter (fun r => decide (r.get "_composite_key" ∉ procKeys))).map
    (mkMismatchRecord "Missing in Processed")

/-- `get_detailed_mismatches(processed_df, expected_df, key_columns)` of
`data_verifier.py`: key-column presence check (first missing column wins,
as in the source loop), composite keys on copies, then the presence/
absence report. -/
def get_detailed_mismatches (processed expected : DataFrame)
    (key_columns : List String := defaultKeyColumns) : MismatchOutcome :=
  match key_columns.find?
      (fun c => !(decide (c ∈ processed.cols) && decide (c ∈ expected.cols))) with
  | some c => .keyColumnError c
  | none =>
    let proc_df := addCompositeKey key_columns processed
    let exp_df := addCompositeKey key_columns expected
    let records := mismatchRecordsFrom proc_df exp_df
    if records.isEmpty then .noMismatch else .mismatches records

/-- One record of the value-difference report of `get_value_comparison`. -/
structure ValueDiff where
  customerName : Value
  transactionId : Value
  column : String
  processedValue : Value
  expectedValue : Value
  difference : Value
deriving DecidableEq

/-- The three possible returns of `get_value_comparison`: the
"No matching rows" message frame, the comparison table, or the
"All compared values match!" message frame. -/
inductive ValueCompOutcome where
  | noMatchingRows
  | comparisons (records : List ValueDiff)
  | allMatch
deriving DecidableEq

/-- Python `float(x)` on a cell, used inside the `try` of
`get_value_comparison`: numbers pass through, strings are parsed as
decimal numerals (`none` models the `ValueError`), NaN never reaches this
point because of the `pd.notna` guard. -/
def floatOf? : Value → Option Rat
  | .num x => some x
  | .str s => toNumeric? s
  | .missing => none

/-- The per-cell comparison of `get_value_comparison`: under the
`pd.notna` guard, numeric pairs are flagged when the absolute difference
exceeds the 0.01 tolerance (difference reported rounded to 4 decimals);
pairs where `float()` fails on either side are flagged on string
inequality (difference reported as "N/A").  `none` means no record is
appended for this cell. -/
def compareCell (proc_val exp_val : Value) : Option Value :=
  if proc_val.notna && exp_val.notna then
    match floatOf? proc_val, floatOf? exp_val with
    | some pf, some ef =>
      if decide ((1 : Rat) / 100 < |pf - ef|) then some (.num (round4 (pf - ef)))
      else none
    | _, _ =>
      if proc_val.astypeStr ≠ exp_val.astypeStr then some (.str "N/A") else none
  else none

/-- The records contributed by one matched composite key: the first
matching row is taken on each side (`iloc[0]`), and each compare column
present in both frames contributes at most one record via `compareCell`. -/
def keyRecords (proc_df exp_df : DataFrame) (compare_columns : List String)
    (k : Value) : List ValueDiff :=
  match (proc_df.rows.filter (fun r => r.get "_composite_key" == k)).head?,
        (exp_df.rows.filter (fun r => r.get "_composite_key" == k)).head? with
  | some proc_row, some exp_row =>
    (compare_columns.filter
        (fun c => decide (c ∈ proc_df.cols) && decide (c ∈ exp_df.cols))).filterMap
      (fun col => (compareCell (proc_row.get col) (exp_row.get col)).map
        (fun diff => ⟨proc_row.get "Customer Name", proc_row.get "Transaction#", col,
          proc_row.get col, exp_row.get col, diff⟩))
  | _, _ => []

/-- `set(proc_df["_composite_key"]) & set(exp_df["_composite_key"])` as a
duplicate-free list.  Python set iteration order is unspecified; the model
fixes first-appearance order on the processed side (no claim depends on
which 100 keys survive the cap). -/
def commonKeys (proc_df exp_df : DataFrame) : List Value :=
  ((proc_df.rows.map (fun r => r.get "_composite_key")).dedup).filter
    (fun k => decide (k ∈ exp_df.rows.map (fun r => r.get "_composite_key")))

/-- `get_value_comparison(processed_df, expected_df, compare_columns)` of
`data_verifier.py`.  The unguarded `proc_df[key_columns]` raises
`KeyError` when a key column is absent; this is the `none` case.  The
evaluation is capped at the first 100 matched keys. -/
def get_value_comparison (processed expected : DataFrame)
    (compare_columns : List String := defaultCompareColumns) :
    Option ValueCompOutcome :=
  if "Customer Name" ∈ processed.cols ∧ "Transaction#" ∈ processed.cols ∧
     "Customer Name" ∈ expected.cols ∧ "Transaction#" ∈ expected.cols then
    let proc_df := addCompositeKey defaultKeyColumns processed
    let exp_df := addCompositeKey defaultKeyColumns expected
    let common := commonKeys proc_df exp_df
    if common.isEmpty then some .noMatchingRows
    else
      let records := (common.take 100).flatMap (keyRecords proc_df exp_df compare_columns)
      if records.isEmpty then some .allMatch else some (.comparisons records)
  else none

/-! ## A store model for the mutation claims

pandas frames are mutable heap objects; `.copy()` allocates a fresh one
and in-place column assignment mutates through the reference.  To state
that the functions never mutate their *input* frames, each function is
re-run over an explicit store of frames: references are store indices,
`.copy()` allocates, and every in-place assignment of the source is a
`Store.update` on the reference it targets. -/

/-- A heap of DataFrames; a reference is an index. -/
abbrev Store := List DataFrame

/-- Dereference (out-of-range reads give an empty frame; the theorems only
use in-range references). -/
def Store.read (st : Store) (i : Nat) : DataFrame :=
  st.getD i ⟨[], []⟩

/-- Overwrite the frame at a reference. -/
def Store.write (st : Store) (i : Nat) (d : DataFrame) : Store :=
  st.set i d

/-- `.copy()` / fresh-frame allocation: returns the new store and the new
reference. -/
def Store.alloc (st : Store) (d : DataFrame) : Store × Nat :=
  (st ++ [d], st.length)

/-- An in-place modification (column assignment, rebinding of the working
frame) applied through a reference. -/
def Store.update (st : Store) (i : Nat) (f : DataFrame → DataFrame) : Store :=
  st.write i (f (st.read i))

/-- `process_excel` over the store: the input is passed by reference `df`;
the first statement copies the Overdue-filtered frame
(`df[df["Status"] == "Overdue"].copy()`), and every later statement of the
source acts on that copy, never on `df`. -/
def process_excel_state (st : Store) (df : Nat) (due_days daily_rate : Rat)
    (working_days ob_age : Rat) : Store × Option DataFrame :=
  if "Status" ∈ (st.read df).cols then
    let a := st.alloc ((st.read df).filterRows (fun r => r.get "Status" == Value.str "Overdue"))
    let st1 := a.1
    let dff := a.2
    let st2 := st1.update dff (fun d => d.dropCols COLUMNS_TO_DROP)
    if "Balance Due" ∈ (st2.read dff).cols then
      let st3 := st2.update dff (fun d => d.setCol "Balance Due"
        (fun r => fillna0 (clean_currency_column (r.get "Balance Due"))))
      if "Amount" ∈ (st3.read dff).cols then
        let st4 := st3.update dff (fun d => d.setCol "Amount"
          (fun r => clean_currency_column (r.get "Amount")))
        if "Age" ∈ (st4.read dff).cols then
          let st5 := st4.update dff (fun d => d.setCol "Age"
            (fun r => clean_age_column (r.get "Age")))
          if "Type" ∈ (st5.read dff).cols then
            let st6 := st5.update dff (overrideOpeningBalanceAge ob_age)
            let st7 := st6.update dff (fun d => d.filterRows
              (fun r => valGt (r.get "Age") due_days))
            if "Customer Name" ∈ (st7.read dff).cols then
              let st8 := st7.update dff DataFrame.sortByCustomer
              let st9 := st8.update dff (deriveColumns due_days daily_rate)
              (st9, (st9.read dff).select FINAL_COLUMNS)
            else (st7, none)
          else (st5, none)
        else (st4, none)
      else (st3, none)
    else (st2, none)
  else (st, none)

/-- `get_detailed_mismatches` over the store: the two inputs are passed by
reference; `proc_df = processed_df.copy()` and `exp_df =
expected_df.copy()` allocate, and the `_composite_key` assignments mutate
only the copies. -/
def get_detailed_mismatches_state (st : Store) (p e : Nat)
    (key_columns : List String := defaultKeyColumns) : Store × MismatchOutcome :=
  match key_columns.find?
      (fun c => !(decide (c ∈ (st.read p).cols) && decide (c ∈ (st.read e).cols))) with
  | some c => (st, .keyColumnError c)
  | none =>
    let a := st.alloc (st.read p)
    let st1 := a.1
    let pc := a.2
    let b := st1.alloc (st1.read e)
    let st2 := b.1
    let ec := b.2
    let st3 := st2.update pc (fun d => d.setCol "_composite_key"
      (fun r => .str (compositeKey key_columns r)))
    let st4 := st3.update ec (fun d => d.setCol "_composite_key"
      (fun r => .str (compositeKey key_columns r)))
    let records := mismatchRecordsFrom (st4.read pc) (st4.read ec)
    (st4, if records.isEmpty then .noMismatch else .mismatches records)

/-- `get_value_comparison` over the store, with the same copy-then-key
structure as `get_detailed_mismatches_state`. -/
def get_value_comparison_state (st : Store) (p e : Nat)
    (compare_columns : List String := defaultCompareColumns) :
    Store × Option ValueCompOutcome :=
  if "Customer Name" ∈ (st.read p).cols ∧ "Transaction#" ∈ (st.read p).cols ∧
     "Customer Name" ∈ (st.read e).cols ∧ "Transaction#" ∈ (st.read e).cols then
    let a := st.alloc (st.read p)
    let st1 := a.1
    let pc := a.2
    let b := st1.alloc (st1.read e)
    let st2 := b.1
    let ec := b.2
    let st3 := st2.update pc (fun d => d.setCol "_composite_key"
      (fun r => .str (compositeKey defaultKeyColumns r)))
    let st4 := st3.update ec (fun d => d.setCol "_composite_key"
      (fun r => .str (compositeKey defaultKeyColumns r)))
    let common := commonKeys (st4.read pc) (st4.read ec)
    if common.isEmpty then (st4, some .noMatchingRows)
    else
      let records := (common.take 100).flatMap
        (keyRecords (st4.read pc) (st4.read ec) compare_columns)
      (st4, if records.isEmpty then some .allMatch else some (.comparisons records))
  else (st, none)

/-! ## Sample data for the witnesses -/

/-- A well-formed single-row input: Overdue, Age "200 Days", Balance Due
"1,000" (no currency glyph), under the 13-column required schema. -/
def sampleRow : Row :=
  [("Region", .str "North"), ("Area Name", .str "A1"), ("Market", .str "M1"),
   ("Customer Name", .str "Acme"), ("Customer Number", .str "C1"),
   ("DATE", .str "01-01-2024"), ("Transaction#", .str "T1"),
   ("Type", .str "Invoice"), ("Status", .str "Overdue"),
   ("Due Date", .str "02-01-2024"), ("Amount", .str "1,000"),
   ("Balance Due", .str "1,000"), ("Age", .str "200 Days")]

/-- The sample input frame. -/
def sampleDF : DataFrame := ⟨REQUIRED_INPUT_COLUMNS, [sampleRow]⟩

/-- The frame `process_excel` produces on the sample input with the default
configuration (threshold 150, per-day rate 0.06, working days 31, opening
balance age 300). -/
def sampleOut : DataFrame :=
  (process_excel sampleDF 150 (3/50) 31 300).getD ⟨[], []⟩

/-- The single row of `sampleOut`. -/
def sampleOutRow : Row := sampleOut.rows.headD []

/-- The input row of claim C3: Status "Overdue", Type "Invoice", Age text
"260 Days", Balance Due text "₹10,000" with the genuine rupee sign. -/
def c3InputRow : Row :=
  [("Region", .str "North"), ("Area Name", .str "A1"), ("Market", .str "M1"),
   ("Customer Name", .str "Acme"), ("Customer Number", .str "C1"),
   ("DATE", .str "01-01-2024"), ("Transaction#", .str "T1"),
   ("Type", .str "Invoice"), ("Status", .str "Overdue"),
   ("Due Date", .str "02-01-2024"), ("Amount", .str "10"),
   ("Balance Due", .str "₹10,000"), ("Age", .str "260 Days")]

/-- The claim C3 input frame. -/
def c3Input : DataFrame := ⟨REQUIRED_INPUT_COLUMNS, [c3InputRow]⟩

/-- What `process_excel` returns on the claim C3 input under
DueDaysThreshold 150, PerDayInterestRate 0.06, InterestWorkingDays 31,
OpeningBalanceAge 300. -/
def c3Output : DataFrame :=
  (process_excel c3Input 150 (3/50) 31 300).getD ⟨[], []⟩

/-- A one-row frame sharing `sampleDF`'s key values, used by the verifier
witnesses: same composite key, interest amount differing from the
processed output by more than the tolerance. -/
def expectedSample : DataFrame :=
  ⟨FINAL_COLUMNS,
   [[("Region", .str "North"), ("Area Name", .str "A1"), ("Market", .str "M1"),
     ("Customer Name", .str "Acme"), ("Customer Number", .str "C1"),
     ("DATE", .str "01-01-2024"), ("Transaction#", .str "T1"),
     ("Type", .str "Invoice"), ("Status", .str "Overdue"),
     ("Due Date", .str "02-01-2024"), ("Amount", .num 1000),
     ("Balance Due", .num 1000), ("Age", .num 200),
     ("Due days", .num 150), ("Previous interst", .num 0),
     ("interst working", .num 50), ("per day interst%", .num (3/50)),
     ("working interst in %", .num 3), ("interest amount", .num 31)]]⟩

/-- A frame with a second row whose composite key is absent from
`expectedSample`. -/
def processedTwoRows : DataFrame :=
  ⟨FINAL_COLUMNS,
   expectedSample.rows ++
   [[("Region", .str "North"), ("Area Name", .str "A1"), ("Market", .str "M1"),
     ("Customer Name", .str "Extra Co"), ("Customer Number", .str "C2"),
     ("DATE", .str "01-01-2024"), ("Transaction#", .str "T9"),
     ("Type", .str "Invoice"), ("Status", .str "Overdue"),
     ("Due Date", .str "02-01-2024"), ("Amount", .num 5),
     ("Balance Due", .num 5), ("Age", .num 200),
     ("Due days", .num 150), ("Previous interst", .num 0),
     ("interst working", .num 50), ("per day interst%", .num (3/50)),
     ("working interst in %", .num 3), ("interest amount", .num (3/20))]]⟩

/-- A two-frame store holding the verifier witnesses' inputs. -/
def sampleStore : Store := [processedTwoRows, expectedSample]

/-! ## Basic lemmas about rows and frames -/

theorem Row.get_cons (k c : String) (w : Value) (r : Row) :
    Row.get ((k, w) :: r) c = if c = k then w else Row.get r c := by
  by_cases h : c = k
  · simp [Row.get, List.lookup, h]
  · have hb : (c == k) = false := beq_eq_false_iff_ne.mpr h
    simp [Row.get, List.lookup, hb, h]

theorem Row.get_set (r : Row) (c c' : String) (v : Value) :
    Row.get (r.set c v) c' = if c' = c then v else Row.get r c' := by
  induction r with
  | nil => by_cases h : c' = c <;> simp [Row.set, Row.get_cons, h]
  | cons p r ih =>
    obtain ⟨k, w⟩ := p
    by_cases hkc : k = c
    · subst hkc
      by_cases h : c' = k <;> simp [Row.set, Row.get_cons, h]
    · by_cases h1 : c' = k <;> by_cases h2 : c' = c <;>
        simp_all [Row.set, Row.get_cons, hkc]


theorem Row.get_dropKeys (r : Row) (cs : List String) (c : String) (h : c ∉ cs) :
    (r.dropKeys cs).get c = r.get c := by
  induction r with
  | nil => rfl
  | cons p r ih =>
    obtain ⟨k, w⟩ := p
    by_cases hk : k ∈ cs
    · have hne : c ≠ k := fun e => h (e ▸ hk)
      simp [Row.dropKeys, List.filter_cons, hk, Row.get_cons, hne] at ih ⊢
      exact ih
    · by_cases hck : c = k <;>
        simp_all [Row.dropKeys, List.filter_cons, hk, Row.get_cons, hck]

theorem Row.get_proj (cs : List String) (r : Row) (c : String) (h : c ∈ cs) :
    Row.get (cs.map (fun c' => (c', r.get c'))) c = r.get c := by
  induction cs with
  | nil => cases h
  | cons k cs ih =>
    by_cases hck : c = k
    · subst hck; simp [Row.get_cons]
    · have hmem : c ∈ cs := by
        rcases List.mem_cons.1 h with h' | h'
        · exact absurd h' hck
        · exact h'
      simp [Row.get_cons, hck, ih hmem]

theorem mem_orderedInsertRow {x a : Row} (l : List Row) :
    a ∈ orderedInsertRow x l ↔ a = x ∨ a ∈ l := by
  induction l with
  | nil => simp [orderedInsertRow]
  | cons y ys ih =>
    by_cases h : strLe (sortKey x) (sortKey y) = true
    · simp [orderedInsertRow, h]
    · simp only [orderedInsertRow, if_neg h, List.mem_cons, ih]
      tauto

theorem mem_insertionSortRows {a : Row} (l : List Row) :
    a ∈ insertionSortRows l ↔ a ∈ l := by
  induction l with
  | nil => simp [insertionSortRows]
  | cons x xs ih =>
    simp [insertionSortRows, mem_orderedInsertRow, ih]

theorem valGt_eq_true_iff (v : Value) (t : Rat) :
    valGt v t = true ↔ ∃ x, v = .num x ∧ t < x := by
  cases v <;> simp [valGt]

theorem fillna0_clean_currency_num (v : Value) :
    ∃ x, fillna0 (clean_currency_column v) = .num x := by
  cases h : toNumeric? (pyStrip (pyReplace (pyReplace v.astypeStr rupeeLiteral "") "," "")) with
  | none => exact ⟨0, by simp [clean_currency_column, h, fillna0]⟩
  | some x => exact ⟨x, by simp [clean_currency_column, h, fillna0]⟩

theorem mem_setCol_cols_iff (df : DataFrame) (c c' : String) (f : Row → Value) :
    c' ∈ (df.setCol c f).cols ↔ c' ∈ df.cols ∨ c' = c := by
  by_cases h : c ∈ df.cols
  · simp only [DataFrame.setCol, if_pos h]
    constructor
    · exact Or.inl
    · rintro (h' | rfl)
      · exact h'
      · exact h
  · simp [DataFrame.setCol, if_neg h]


theorem deriveColumns_rows (dd dr : Rat) (df : DataFrame) :
    (deriveColumns dd dr df).rows = df.rows.map (deriveRow dd dr) := by
  simp only [deriveColumns, DataFrame.setCol, List.map_map]
  rfl

theorem deriveRow_gets (dd dr : Rat) (r : Row) :
    (deriveRow dd dr r).get "Status" = r.get "Status" ∧
    (deriveRow dd dr r).get "Age" = r.get "Age" ∧
    (deriveRow dd dr r).get "Balance Due" = r.get "Balance Due" ∧
    (deriveRow dd dr r).get "Due days" = Value.num dd ∧
    (deriveRow dd dr r).get "interst working" = (r.get "Age").sub (Value.num dd) ∧
    (deriveRow dd dr r).get "Previous interst" =
      (((r.get "Age").sub (Value.num dd)).sub ((r.get "Age").sub (Value.num dd))).clipLower 0 ∧
    (deriveRow dd dr r).get "per day interst%" = Value.num dr ∧
    (deriveRow dd dr r).get "working interst in %" =
      ((r.get "Age").sub (Value.num dd)).mul (Value.num dr) ∧
    (deriveRow dd dr r).get "interest amount" =
      ((r.get "Balance Due").mul
        ((((r.get "Age").sub (Value.num dd)).mul (Value.num dr)).div (Value.num 100))).round4V := by
  refine ⟨?_, ?_, ?_, ?_, ?_, ?_, ?_, ?_, ?_⟩ <;> simp [deriveRow, Row.get_set]

theorem cleaned_row_facts (df : DataFrame) (oa : Rat) (r : Row)
    (hr : r ∈ (overrideOpeningBalanceAge oa (cleanAge (cleanAmount (cleanBalanceDue
      (filterOverdueDrop df))))).rows) :
    r.get "Status" = Value.str "Overdue" ∧ ∃ bd, r.get "Balance Due" = Value.num bd := by
  simp only [overrideOpeningBalanceAge, cleanAge, cleanAmount, cleanBalanceDue,
    filterOverdueDrop, DataFrame.setCol, DataFrame.dropCols, DataFrame.filterRows,
    List.map_map, List.mem_map] at hr
  obtain ⟨r0, hr0, rfl⟩ := hr
  obtain ⟨hr0m, hsP⟩ := List.mem_filter.1 hr0
  rw [beq_iff_eq] at hsP
  constructor
  · simp [Function.comp, Row.get_set, Row.get_dropKeys, COLUMNS_TO_DROP, hsP]
  · obtain ⟨bd, hbd⟩ := fillna0_clean_currency_num ((r0.dropKeys COLUMNS_TO_DROP).get "Balance Due")
    exact ⟨bd, by simp [Function.comp, Row.get_set, hbd]⟩

set_option maxHeartbeats 800000 in
theorem process_excel_rows_spec (df : DataFrame) (dd dr wd oa : Rat) (out : DataFrame)
    (h : process_excel df dd dr wd oa = some out) :
    out.cols = FINAL_COLUMNS ∧
    ∀ r ∈ out.rows, r.map Prod.fst = FINAL_COLUMNS ∧
      r.get "Status" = .str "Overdue" ∧
      ∃ a bd, r.get "Age" = .num a ∧ dd < a ∧
        r.get "Balance Due" = .num bd ∧
        r.get "Due days" = .num dd ∧
        r.get "interst working" = .num (a - dd) ∧
        r.get "Previous interst" = .num (max (a - dd - (a - dd)) 0) ∧
        r.get "per day interst%" = .num dr ∧
        r.get "working interst in %" = .num ((a - dd) * dr) ∧
        r.get "interest amount" = .num (round4 (bd * ((a - dd) * dr / 100))) := by
  simp only [process_excel] at h
  split at h
  rotate_left
  · exact Option.noConfusion h
  split at h
  rotate_left
  · exact Option.noConfusion h
  split at h
  rotate_left
  · exact Option.noConfusion h
  split at h
  rotate_left
  · exact Option.noConfusion h
  split at h
  rotate_left
  · exact Option.noConfusion h
  split at h
  rotate_left
  · exact Option.noConfusion h
  simp only [DataFrame.select] at h
  split at h
  rotate_left
  · exact Option.noConfusion h
  obtain rfl : out = _ := (Option.some.inj h).symm
  refine ⟨rfl, ?_⟩
  intro r hr
  simp only [deriveColumns_rows, List.map_map, List.mem_map] at hr
  obtain ⟨r8, hr8, rfl⟩ := hr
  simp only [DataFrame.sortByCustomer] at hr8
  rw [mem_insertionSortRows] at hr8
  simp only [DataFrame.filterRows] at hr8
  obtain ⟨hr8m, haP⟩ := List.mem_filter.1 hr8
  obtain ⟨a, hAge, hlt⟩ := (valGt_eq_true_iff _ _).1 haP
  obtain ⟨hStatus, bd, hBD⟩ := cleaned_row_facts df oa r8 hr8m
  obtain ⟨g1, g2, g3, g4, g5, g6, g7, g8, g9⟩ := deriveRow_gets dd dr r8
  simp only [Function.comp_apply]
  have hproj : ∀ c, c ∈ FINAL_COLUMNS →
      Row.get (FINAL_COLUMNS.map fun c' => (c', Row.get (deriveRow dd dr r8) c')) c =
        Row.get (deriveRow dd dr r8) c :=
    fun c hc => Row.get_proj _ _ _ hc
  refine ⟨by simp [List.map_map, Function.comp_def], ?_, a, bd, ?_, hlt, ?_, ?_, ?_, ?_, ?_, ?_, ?_⟩
  · rw [hproj _ (by decide), g1, hStatus]
  · rw [hproj _ (by decide), g2, hAge]
  · rw [hproj _ (by decide), g3, hBD]
  · rw [hproj _ (by decide), g4]
  · rw [hproj _ (by decide), g5, hAge]; simp [Value.sub]
  · rw [hproj _ (by decide), g6, hAge]; simp [Value.sub, Value.clipLower]
  · rw [hproj _ (by decide), g7]
  · rw [hproj _ (by decide), g8, hAge]; simp [Value.sub, Value.mul]
  · rw [hproj _ (by decide), g9, hAge, hBD]
    simp [Value.sub, Value.mul, Value.div, Value.round4V]



theorem Store.read_write_self (st : Store) (i : Nat) (d : DataFrame)
    (h : i < st.length) : (st.write i d).read i = d := by
  simp [Store.read, Store.write, List.getD, List.getElem?_set_self h]

theorem Store.read_write_ne (st : Store) (i j : Nat) (d : DataFrame)
    (h : i ≠ j) : (st.write j d).read i = st.read i := by
  simp [Store.read, Store.write, List.getD, List.getElem?_set_ne (fun e => h e.symm)]

theorem Store.read_alloc_lt (st : Store) (d : DataFrame) (i : Nat)
    (h : i < st.length) : (st.alloc d).1.read i = st.read i := by
  simp [Store.read, Store.alloc, List.getD, List.getElem?_append_left h]

theorem Store.read_alloc_new (st : Store) (d : DataFrame) :
    (st.alloc d).1.read st.length = d := by
  simp [Store.read, Store.alloc, List.getD, List.getElem?_concat_length]

theorem Store.read_update_ne (st : Store) (i j : Nat) (f : DataFrame → DataFrame)
    (h : i ≠ j) : (st.update j f).read i = st.read i :=
  Store.read_write_ne st i j _ h

theorem Store.read_update_self (st : Store) (i : Nat) (f : DataFrame → DataFrame)
    (h : i < st.length) : (st.update i f).read i = f (st.read i) :=
  Store.read_write_self st i _ h

theorem Store.length_write (st : Store) (i : Nat) (d : DataFrame) :
    (st.write i d).length = st.length := by
  simp [Store.write]

theorem Store.length_update (st : Store) (i : Nat) (f : DataFrame → DataFrame) :
    (st.update i f).length = st.length := by
  simp [Store.update, Store.length_write]

theorem Store.length_alloc (st : Store) (d : DataFrame) :
    (st.alloc d).1.length = st.length + 1 := by
  simp [Store.alloc]



theorem Store.alloc_ref (st : Store) (d : DataFrame) : (st.alloc d).2 = st.length := rfl

theorem process_excel_state_preserves (st : Store) (df : Nat) (dd dr wd oa : Rat)
    (h : df < st.length) :
    (process_excel_state st df dd dr wd oa).1.read df = st.read df := by
  have hne : df ≠ st.length := Nat.ne_of_lt h
  simp only [process_excel_state]
  repeat' split
  all_goals
    simp [Store.read_update_ne, Store.read_alloc_lt, Store.alloc_ref, hne, h]

theorem process_excel_state_result (st : Store) (df : Nat) (dd dr wd oa : Rat) :
    (process_excel_state st df dd dr wd oa).2 = process_excel (st.read df) dd dr wd oa := by
  simp only [process_excel_state, process_excel, Store.read_update_self, Store.read_alloc_new,
    Store.alloc_ref, Store.length_update, Store.length_alloc, Nat.lt_succ_self,
    filterOverdueDrop, cleanBalanceDue, cleanAmount, cleanAge]
  split_ifs <;>
    simp [Store.read_update_self, Store.read_alloc_new, Store.alloc_ref, Store.length_update,
      Store.length_alloc, Nat.lt_succ_self]



theorem Store.read_alloc_new' (st : Store) (d : DataFrame) (i : Nat)
    (h : i = st.length) : (st.alloc d).1.read i = d := by
  subst h; exact Store.read_alloc_new st d

theorem gdm_state_preserves (st : Store) (p e i : Nat) (hi : i < st.length) :
    (get_detailed_mismatches_state st p e).1.read i = st.read i := by
  have h1 : i ≠ st.length := Nat.ne_of_lt hi
  have h2 : i ≠ st.length + 1 := by omega
  have h3 : i < st.length + 1 := by omega
  simp only [get_detailed_mismatches_state]
  split
  · rfl
  · simp [Store.read_update_ne, Store.read_alloc_lt, Store.alloc_ref, Store.length_alloc,
      h1, h2, h3, hi]

theorem gdm_state_result (st : Store) (p e : Nat) (hp : p < st.length) (he : e < st.length) :
    (get_detailed_mismatches_state st p e).2 =
      get_detailed_mismatches (st.read p) (st.read e) := by
  have hne : st.length ≠ st.length + 1 := by omega
  have hlt : st.length < st.length + 1 := by omega
  have hlt2 : st.length < st.length + 1 + 1 := by omega
  simp only [get_detailed_mismatches_state, get_detailed_mismatches]
  split
  · rfl
  · simp [Store.read_update_ne, Store.read_update_self, Store.read_alloc_lt,
      Store.read_alloc_new, Store.read_alloc_new', Store.alloc_ref, Store.length_alloc,
      Store.length_update, hne, hlt, hlt2, he, addCompositeKey]

theorem gvc_state_preserves (st : Store) (p e i : Nat) (hi : i < st.length) :
    (get_value_comparison_state st p e).1.read i = st.read i := by
  have h1 : i ≠ st.length := Nat.ne_of_lt hi
  have h2 : i ≠ st.length + 1 := by omega
  have h3 : i < st.length + 1 := by omega
  simp only [get_value_comparison_state]
  split
  · split <;>
      simp [Store.read_update_ne, Store.read_alloc_lt, Store.alloc_ref, Store.length_alloc,
        h1, h2, h3, hi]
  · rfl

theorem gvc_state_result (st : Store) (p e : Nat) (hp : p < st.length) (he : e < st.length) :
    (get_value_comparison_state st p e).2 =
      get_value_comparison (st.read p) (st.read e) := by
  have hne : st.length ≠ st.length + 1 := by omega
  have hlt : st.length < st.length + 1 := by omega
  have hlt2 : st.length < st.length + 1 + 1 := by omega
  simp only [get_value_comparison_state, get_value_comparison]
  split
  · simp [Store.read_update_ne, Store.read_update_self, Store.read_alloc_lt,
      Store.read_alloc_new, Store.read_alloc_new', Store.alloc_ref, Store.length_alloc,
      Store.length_update, hne, hlt, hlt2, he, addCompositeKey]
    split_ifs <;> simp_all
  · simp only [*, if_false]



theorem cols_filterRows (df : DataFrame) (p : Row → Bool) :
    (df.filterRows p).cols = df.cols := rfl

theorem cols_sortByCustomer (df : DataFrame) :
    df.sortByCustomer.cols = df.cols := rfl

theorem mem_cols_filterOverdueDrop (df : DataFrame) (c : String) :
    c ∈ (filterOverdueDrop df).cols ↔ c ∈ df.cols ∧ c ∉ COLUMNS_TO_DROP := by
  simp [filterOverdueDrop, DataFrame.dropCols, DataFrame.filterRows, List.mem_filter]

theorem mem_cols_deriveColumns (dd dr : Rat) (df : DataFrame) (c : String) :
    c ∈ (deriveColumns dd dr df).cols ↔ c ∈ df.cols ∨
      c = "Due days" ∨ c = "interst working" ∨ c = "Previous interst" ∨
      c = "per day interst%" ∨ c = "working interst in %" ∨ c = "interest amount" := by
  simp only [deriveColumns, mem_setCol_cols_iff]
  tauto

/-- C1: for every row of the table returned by `process_excel`, the
`interest amount` column equals `round(Balance Due × (working interst in % / 100), 4)`,
where `working interst in %` equals the row's `interst working` value
multiplied by the configured per-day interest rate. -/
theorem claim_C1_interest_amount_formula (df : DataFrame) (dd dr wd oa : Rat)
    (out : DataFrame) (h : process_excel df dd dr wd oa = some out) :
    ∀ r ∈ out.rows, ∃ bd iw,
      r.get "Balance Due" = Value.num bd ∧
      r.get "interst working" = Value.num iw ∧
      r.get "working interst in %" = Value.num (iw * dr) ∧
      r.get "interest amount" = Value.num (round4 (bd * (iw * dr / 100))) := by
  intro r hr
  obtain ⟨-, hrows⟩ := process_excel_rows_spec df dd dr wd oa out h
  obtain ⟨-, -, a, bd, -, -, hbd, -, hiw, -, -, hwi, hia⟩ := hrows r hr
  exact ⟨bd, a - dd, hbd, hiw, hwi, hia⟩

/-- C2: every row of the table returned by `process_excel` has Status
exactly `"Overdue"` and a numeric (cleaned) Age strictly above the
threshold; a missing Age can never satisfy the `Age > due_days` mask, so
such rows are dropped. -/
theorem claim_C2_overdue_age_filter (df : DataFrame) (dd dr wd oa : Rat)
    (out : DataFrame) (h : process_excel df dd dr wd oa = some out) :
    (∀ r ∈ out.rows, r.get "Status" = Value.str "Overdue" ∧
      ∃ a, r.get "Age" = Value.num a ∧ dd < a) ∧
    (∀ t : Rat, valGt Value.missing t = false) := by
  obtain ⟨-, hrows⟩ := process_excel_rows_spec df dd dr wd oa out h
  refine ⟨fun r hr => ?_, fun t => rfl⟩
  obtain ⟨-, hst, a, bd, hAge, hlt, -⟩ := hrows r hr
  exact ⟨hst, a, hAge, hlt⟩

/-- C4: `process_excel` implements the dynamic policy: every output row
has `interst working = Age − due_days` with no cap, and
`Previous interst = max(0, Age − due_days − interst working)`, which is
nonnegative and identically 0 under this policy. -/
theorem claim_C4_dynamic_policy (df : DataFrame) (dd dr wd oa : Rat)
    (out : DataFrame) (h : process_excel df dd dr wd oa = some out) :
    ∀ r ∈ out.rows, ∃ a, r.get "Age" = Value.num a ∧
      r.get "interst working" = Value.num (a - dd) ∧
      r.get "Previous interst" = Value.num (max 0 (a - dd - (a - dd))) ∧
      (0 : Rat) ≤ max 0 (a - dd - (a - dd)) ∧
      max 0 (a - dd - (a - dd)) = 0 := by
  intro r hr
  obtain ⟨-, hrows⟩ := process_excel_rows_spec df dd dr wd oa out h
  obtain ⟨-, -, a, bd, hAge, -, -, -, hiw, hprev, -⟩ := hrows r hr
  refine ⟨a, hAge, hiw, ?_, le_max_left _ _, by simp⟩
  rw [hprev, max_comm]

/-- C5: whenever the input frame has the 13 required input columns,
`process_excel` succeeds and its output carries exactly the fixed
19-column `FINAL_COLUMNS` schema, in schema order, in both the column
list and every row; every other input column is absent from the output. -/
theorem claim_C5_output_schema (df : DataFrame) (dd dr wd oa : Rat)
    (hreq : ∀ c ∈ REQUIRED_INPUT_COLUMNS, c ∈ df.cols) :
    ∃ out, process_excel df dd dr wd oa = some out ∧
      out.cols = FINAL_COLUMNS ∧
      ∀ r ∈ out.rows, r.map Prod.fst = FINAL_COLUMNS := by
  have hS : "Status" ∈ df.cols := hreq _ (by decide)
  have hA : "Balance Due" ∈ (filterOverdueDrop df).cols := by
    simp [mem_cols_filterOverdueDrop, COLUMNS_TO_DROP,
      hreq _ (show "Balance Due" ∈ REQUIRED_INPUT_COLUMNS by decide)]
  have hB : "Amount" ∈ (cleanBalanceDue (filterOverdueDrop df)).cols := by
    simp [cleanBalanceDue, mem_setCol_cols_iff, mem_cols_filterOverdueDrop, COLUMNS_TO_DROP,
      hreq _ (show "Amount" ∈ REQUIRED_INPUT_COLUMNS by decide)]
  have hC : "Age" ∈ (cleanAmount (cleanBalanceDue (filterOverdueDrop df))).cols := by
    simp [cleanAmount, cleanBalanceDue, mem_setCol_cols_iff, mem_cols_filterOverdueDrop,
      COLUMNS_TO_DROP, hreq _ (show "Age" ∈ REQUIRED_INPUT_COLUMNS by decide)]
  have hD : "Type" ∈ (cleanAge (cleanAmount (cleanBalanceDue (filterOverdueDrop df)))).cols := by
    simp [cleanAge, cleanAmount, cleanBalanceDue, mem_setCol_cols_iff, mem_cols_filterOverdueDrop,
      COLUMNS_TO_DROP, hreq _ (show "Type" ∈ REQUIRED_INPUT_COLUMNS by decide)]
  have hE : "Customer Name" ∈ ((overrideOpeningBalanceAge oa (cleanAge (cleanAmount
      (cleanBalanceDue (filterOverdueDrop df))))).filterRows
      (fun r => valGt (r.get "Age") dd)).cols := by
    simp [cols_filterRows, overrideOpeningBalanceAge, cleanAge, cleanAmount, cleanBalanceDue,
      mem_setCol_cols_iff, mem_cols_filterOverdueDrop, COLUMNS_TO_DROP,
      hreq _ (show "Customer Name" ∈ REQUIRED_INPUT_COLUMNS by decide)]
  have hall : ∀ c ∈ FINAL_COLUMNS,
      c ∈ (deriveColumns dd dr ((overrideOpeningBalanceAge oa (cleanAge (cleanAmount
        (cleanBalanceDue (filterOverdueDrop df))))).filterRows
        (fun r => valGt (r.get "Age") dd)).sortByCustomer).cols := by
    intro c hc
    have hsplit : FINAL_COLUMNS = REQUIRED_INPUT_COLUMNS ++
        ["Due days", "Previous interst", "interst working",
         "per day interst%", "working interst in %", "interest amount"] := by decide
    rw [hsplit] at hc
    rcases List.mem_append.1 hc with hc | hc
    · have h0 : c ∈ df.cols := hreq c hc
      have hnot : c ∉ COLUMNS_TO_DROP := by fin_cases hc <;> decide
      simp [mem_cols_deriveColumns, cols_sortByCustomer, cols_filterRows,
        overrideOpeningBalanceAge, cleanAge, cleanAmount, cleanBalanceDue,
        mem_setCol_cols_iff, mem_cols_filterOverdueDrop]
      tauto
    · fin_cases hc <;>
        simp [mem_cols_deriveColumns, cols_sortByCustomer, cols_filterRows,
          overrideOpeningBalanceAge, cleanAge, cleanAmount, cleanBalanceDue,
          mem_setCol_cols_iff, mem_cols_filterOverdueDrop]
  have hallb : (FINAL_COLUMNS.all fun c => decide (c ∈ (deriveColumns dd dr
      ((overrideOpeningBalanceAge oa (cleanAge (cleanAmount
        (cleanBalanceDue (filterOverdueDrop df))))).filterRows
        (fun r => valGt (r.get "Age") dd)).sortByCustomer).cols)) = true :=
    List.all_eq_true.mpr (fun c hc => decide_eq_true (hall c hc))
  have heq : process_excel df dd dr wd oa = some
      ⟨FINAL_COLUMNS,
       (deriveColumns dd dr ((overrideOpeningBalanceAge oa (cleanAge (cleanAmount
         (cleanBalanceDue (filterOverdueDrop df))))).filterRows
         (fun r => valGt (r.get "Age") dd)).sortByCustomer).rows.map
         (fun r => FINAL_COLUMNS.map (fun c => (c, r.get c)))⟩ := by
    simp only [process_excel, DataFrame.select]
    rw [if_pos hS, if_pos hA, if_pos hB, if_pos hC, if_pos hD, if_pos hE, if_pos hallb]
  refine ⟨_, heq, rfl, ?_⟩
  intro r hr
  simp only [deriveColumns_rows, List.map_map, List.mem_map] at hr
  obtain ⟨r8, hr8, rfl⟩ := hr
  simp [List.map_map, Function.comp_def]



section
attribute [local semireducible] Rat.add Rat.mul Rat.sub Rat.inv

/-- C3: evaluation of `process_excel` at the claim's concrete input row
{Status "Overdue", Type "Invoice", Age "260 Days", Balance Due "₹10,000"}
under DueDaysThreshold 150, PerDayInterestRate 0.06, InterestWorkingDays
31, OpeningBalanceAge 300.  The row is kept with Age 260, but the Balance
Due cell parses to NaN and is filled with 0 — the cleaner removes the
mojibake `"â‚¹"`, not the genuine rupee sign — and the uncapped dynamic
policy yields `working interst in % = 110 × 0.06 = 6.6`, so the computed
interest amount is 0.0, not the 186.0000 the claim requires (the cap the
`working_days` docstring promises is never applied). -/
theorem claim_C3_code_evaluation :
    process_excel c3Input 150 (3/50) 31 300 = some c3Output ∧
    c3Output.rows.length = 1 ∧
    (c3Output.rows.headD []).get "Age" = Value.num 260 ∧
    (c3Output.rows.headD []).get "Balance Due" = Value.num 0 ∧
    (c3Output.rows.headD []).get "interst working" = Value.num 110 ∧
    (c3Output.rows.headD []).get "working interst in %" = Value.num (33/5) ∧
    (c3Output.rows.headD []).get "interest amount" = Value.num 0 ∧
    clean_currency_column (Value.str "₹10,000") = Value.missing ∧
    clean_currency_column (Value.str "â‚¹10,000") = Value.num 10000 := by
  refine ⟨?_, ?_, ?_, ?_, ?_, ?_, ?_, ?_, ?_⟩ <;> decide

/-- Witness for C1 at the sample input. -/
theorem claim_C1_witness :
    process_excel sampleDF 150 (3/50) 31 300 = some sampleOut ∧
    sampleOutRow ∈ sampleOut.rows ∧
    (∃ bd iw, sampleOutRow.get "Balance Due" = Value.num bd ∧
      sampleOutRow.get "interst working" = Value.num iw ∧
      sampleOutRow.get "working interst in %" = Value.num (iw * (3/50)) ∧
      sampleOutRow.get "interest amount" = Value.num (round4 (bd * (iw * (3/50) / 100)))) :=
  ⟨by decide, by decide,
   claim_C1_interest_amount_formula sampleDF 150 (3/50) 31 300 sampleOut (by decide)
     sampleOutRow (by decide)⟩

/-- Witness for C2 at the sample input. -/
theorem claim_C2_witness :
    (sampleOutRow.get "Status" = Value.str "Overdue" ∧
      ∃ a, sampleOutRow.get "Age" = Value.num a ∧ (150 : Rat) < a) ∧
    valGt Value.missing 150 = false :=
  ⟨(claim_C2_overdue_age_filter sampleDF 150 (3/50) 31 300 sampleOut (by decide)).1
     sampleOutRow (by decide),
   (claim_C2_overdue_age_filter sampleDF 150 (3/50) 31 300 sampleOut (by decide)).2 150⟩

/-- Witness for C4 at the sample input. -/
theorem claim_C4_witness :
    ∃ a, sampleOutRow.get "Age" = Value.num a ∧
      sampleOutRow.get "interst working" = Value.num (a - 150) ∧
      sampleOutRow.get "Previous interst" = Value.num (max 0 (a - 150 - (a - 150))) ∧
      (0 : Rat) ≤ max 0 (a - 150 - (a - 150)) ∧
      max 0 (a - 150 - (a - 150)) = 0 :=
  claim_C4_dynamic_policy sampleDF 150 (3/50) 31 300 sampleOut (by decide)
    sampleOutRow (by decide)

/-- Witness for C5 at the sample input. -/
theorem claim_C5_witness :
    (∀ c ∈ REQUIRED_INPUT_COLUMNS, c ∈ sampleDF.cols) ∧
    ∃ out, process_excel sampleDF 150 (3/50) 31 300 = some out ∧
      out.cols = FINAL_COLUMNS ∧
      ∀ r ∈ out.rows, r.map Prod.fst = FINAL_COLUMNS :=
  ⟨by decide, claim_C5_output_schema sampleDF 150 (3/50) 31 300 (by decide)⟩

end



theorem Row.lookup_set (r : Row) (c c' : String) (v : Value) :
    List.lookup c' (r.set c v) = if c' = c then some v else List.lookup c' r := by
  induction r with
  | nil =>
    by_cases h : c' = c
    · simp [Row.set, List.lookup, h]
    · have hb : (c' == c) = false := beq_eq_false_iff_ne.mpr h
      simp [Row.set, List.lookup, hb, h]
  | cons p r ih =>
    obtain ⟨k, w⟩ := p
    by_cases hkc : k = c
    · subst hkc
      by_cases h : c' = k
      · simp [Row.set, List.lookup, h]
      · have hb : (c' == k) = false := beq_eq_false_iff_ne.mpr h
        simp [Row.set, List.lookup, hb, h]
    · simp only [Row.set, if_neg hkc]
      by_cases h1 : c' = k
      · subst h1
        simp [List.lookup, hkc]
      · have hb : (c' == k) = false := beq_eq_false_iff_ne.mpr h1
        simp [List.lookup, hb, ih]

theorem Row.getWithDefault_set (r : Row) (c c' : String) (v d : Value) :
    (r.set c v).getWithDefault c' d = if c' = c then v else r.getWithDefault c' d := by
  simp only [Row.getWithDefault, Row.lookup_set]
  split <;> simp

theorem mkMismatchRecord_set_composite (t : String) (r : Row) (v : Value) :
    mkMismatchRecord t (r.set "_composite_key" v) = mkMismatchRecord t r := by
  simp [mkMismatchRecord, Row.getWithDefault_set]

theorem str_mem_map_str (a : String) (l : List Row) (g : Row → String) :
    (Value.str a ∈ l.map (fun r => Value.str (g r))) ↔ a ∈ l.map g := by
  simp [List.mem_map]

theorem mismatchRecordsFrom_addCompositeKey (kc : List String) (p e : DataFrame) :
    mismatchRecordsFrom (addCompositeKey kc p) (addCompositeKey kc e) =
      (p.rows.filter (fun r => decide (compositeKey kc r ∉ e.rows.map (compositeKey kc)))).map
        (mkMismatchRecord "Extra in Processed") ++
      (e.rows.filter (fun r => decide (compositeKey kc r ∉ p.rows.map (compositeKey kc)))).map
        (mkMismatchRecord "Missing in Processed") := by
  simp only [mismatchRecordsFrom, addCompositeKey, DataFrame.setCol, List.map_map,
    Function.comp_def, Row.get_set, if_pos rfl, List.filter_map, List.mem_map]
  simp [Row.get_set, mkMismatchRecord_set_composite, Function.comp_def, List.mem_map]



/-- C7: with the default key columns present in both frames,
`get_detailed_mismatches` reports exactly one "Extra in Processed" record
for each processed row whose composite key has no match among the expected
keys (in row order), followed by exactly one "Missing in Processed" record
for each expected row whose key has no match among the processed keys;
rows with matched keys produce no record, every record is of one of the
two types, and when every key matches on both sides the outcome is the
no-mismatch success marker. -/
theorem claim_C7_detailed_mismatches (p e : DataFrame)
    (hk : ∀ c ∈ defaultKeyColumns, c ∈ p.cols ∧ c ∈ e.cols) :
    ∃ recs : List MismatchRecord,
      recs = (p.rows.filter (fun r => decide (compositeKey defaultKeyColumns r ∉
          e.rows.map (compositeKey defaultKeyColumns)))).map
          (mkMismatchRecord "Extra in Processed") ++
        (e.rows.filter (fun r => decide (compositeKey defaultKeyColumns r ∉
          p.rows.map (compositeKey defaultKeyColumns)))).map
          (mkMismatchRecord "Missing in Processed") ∧
      get_detailed_mismatches p e =
        (if recs.isEmpty then .noMismatch else .mismatches recs) ∧
      (∀ r ∈ p.rows, compositeKey defaultKeyColumns r ∉
          e.rows.map (compositeKey defaultKeyColumns) →
        mkMismatchRecord "Extra in Processed" r ∈ recs) ∧
      (∀ r ∈ e.rows, compositeKey defaultKeyColumns r ∉
          p.rows.map (compositeKey defaultKeyColumns) →
        mkMismatchRecord "Missing in Processed" r ∈ recs) ∧
      (∀ rec ∈ recs, rec.mismatchType = "Extra in Processed" ∨
        rec.mismatchType = "Missing in Processed") ∧
      ((∀ r ∈ p.rows, compositeKey defaultKeyColumns r ∈
          e.rows.map (compositeKey defaultKeyColumns)) →
       (∀ r ∈ e.rows, compositeKey defaultKeyColumns r ∈
          p.rows.map (compositeKey defaultKeyColumns)) →
        get_detailed_mismatches p e = .noMismatch) := by
  have hfind : defaultKeyColumns.find?
      (fun c => !(decide (c ∈ p.cols) && decide (c ∈ e.cols))) = none := by
    apply List.find?_eq_none.mpr
    intro c hc
    simp [(hk c hc).1, (hk c hc).2]
  have hunfold : get_detailed_mismatches p e =
      (if (mismatchRecordsFrom (addCompositeKey defaultKeyColumns p)
          (addCompositeKey defaultKeyColumns e)).isEmpty then .noMismatch
       else .mismatches (mismatchRecordsFrom (addCompositeKey defaultKeyColumns p)
          (addCompositeKey defaultKeyColumns e))) := by
    simp only [get_detailed_mismatches, hfind]
  rw [mismatchRecordsFrom_addCompositeKey] at hunfold
  refine ⟨_, rfl, hunfold, ?_, ?_, ?_, ?_⟩
  · intro r hr hnot
    exact List.mem_append_left _ (List.mem_map_of_mem _
      (List.mem_filter.mpr ⟨hr, by simpa using hnot⟩))
  · intro r hr hnot
    exact List.mem_append_right _ (List.mem_map_of_mem _
      (List.mem_filter.mpr ⟨hr, by simpa using hnot⟩))
  · intro rec hrec
    rcases List.mem_append.1 hrec with h | h <;>
      obtain ⟨r, -, rfl⟩ := List.mem_map.1 h
    · exact Or.inl rfl
    · exact Or.inr rfl
  · intro hpm hem
    have h1 : (p.rows.filter (fun r => decide (compositeKey defaultKeyColumns r ∉
        e.rows.map (compositeKey defaultKeyColumns)))) = [] := by
      apply List.filter_eq_nil_iff.mpr
      intro r hr
      simp [hpm r hr]
    have h2 : (e.rows.filter (fun r => decide (compositeKey defaultKeyColumns r ∉
        p.rows.map (compositeKey defaultKeyColumns)))) = [] := by
      apply List.filter_eq_nil_iff.mpr
      intro r hr
      simp [hem r hr]
    rw [hunfold, h1, h2]
    simp



/-- C8: with the key columns present, `get_value_comparison` evaluates at
most the first 100 matched composite keys; for each compared column of a
matched key: when both values are present and numeric, a record is
produced exactly when the absolute difference exceeds the 0.01 tolerance,
with Difference the signed difference rounded to 4 decimals; when either
value is present but non-numeric, a record is produced exactly when the
string forms differ, with Difference the "N/A" marker. -/
theorem claim_C8_value_comparison (p e : DataFrame)
    (hk : "Customer Name" ∈ p.cols ∧ "Transaction#" ∈ p.cols ∧
      "Customer Name" ∈ e.cols ∧ "Transaction#" ∈ e.cols) :
    ∃ common records,
      common = commonKeys (addCompositeKey defaultKeyColumns p)
        (addCompositeKey defaultKeyColumns e) ∧
      records = (common.take 100).flatMap (keyRecords (addCompositeKey defaultKeyColumns p)
        (addCompositeKey defaultKeyColumns e) defaultCompareColumns) ∧
      (common.take 100).length ≤ 100 ∧
      get_value_comparison p e =
        (if common.isEmpty then some .noMatchingRows
         else if records.isEmpty then some .allMatch
         else some (.comparisons records)) ∧
      (∀ pv ev pf ef, pv.notna = true → ev.notna = true →
        floatOf? pv = some pf → floatOf? ev = some ef →
        compareCell pv ev =
          (if (1 : Rat) / 100 < |pf - ef| then some (.num (round4 (pf - ef))) else none)) ∧
      (∀ pv ev, pv.notna = true → ev.notna = true →
        floatOf? pv = none ∨ floatOf? ev = none →
        compareCell pv ev =
          (if pv.astypeStr ≠ ev.astypeStr then some (.str "N/A") else none)) := by
  refine ⟨_, _, rfl, rfl, ?_, ?_, ?_, ?_⟩
  · rw [List.length_take]
    exact min_le_left _ _
  · simp only [get_value_comparison, if_pos hk]
  · intro pv ev pf ef h1 h2 h3 h4
    simp [compareCell, h1, h2, h3, h4]
  · intro pv ev h1 h2 h3
    rcases h3 with h3 | h3
    · simp [compareCell, h1, h2, h3]
    · cases hpv : floatOf? pv <;> simp [compareCell, h1, h2, h3, hpv]

/-- C9: comparing any table against itself yields a zero row-count
difference, matching column sets with empty extra/missing column lists,
and no extra or missing customers (the customer diffs are empty when the
table has a Customer Name column and skipped as `None` otherwise). -/
theorem claim_C9_compare_dataframes_self (T : DataFrame) :
    (compare_dataframes T T).row_difference = 0 ∧
    (compare_dataframes T T).columns_match = true ∧
    (compare_dataframes T T).extra_cols_in_processed = [] ∧
    (compare_dataframes T T).missing_cols_in_processed = [] ∧
    ((compare_dataframes T T).extra_in_processed = none ∨
     (compare_dataframes T T).extra_in_processed = some []) ∧
    ((compare_dataframes T T).missing_in_processed = none ∨
     (compare_dataframes T T).missing_in_processed = some []) := by
  refine ⟨by simp [compare_dataframes], ?_, ?_, ?_, ?_, ?_⟩
  · simp [compare_dataframes, List.all_eq_true]
  · simp [compare_dataframes, List.filter_eq_nil_iff]
  · simp [compare_dataframes, List.filter_eq_nil_iff]
  · by_cases h : "Customer Name" ∈ T.cols
    · exact Or.inr (by simp [compare_dataframes, h, List.filter_eq_nil_iff])
    · exact Or.inl (by simp [compare_dataframes, h])
  · by_cases h : "Customer Name" ∈ T.cols
    · exact Or.inr (by simp [compare_dataframes, h, List.filter_eq_nil_iff])
    · exact Or.inl (by simp [compare_dataframes, h])

/-- C10: none of the three core operations mutates its input frames: run
over an explicit store, each function leaves every input reference's frame
unchanged (in particular no `_composite_key` column appears on the
inputs), while computing the same result as the pure model on the read
inputs. -/
theorem claim_C10_no_input_mutation (st : Store) (df p e : Nat) (dd dr wd oa : Rat)
    (hdf : df < st.length) (hp : p < st.length) (he : e < st.length) :
    ((process_excel_state st df dd dr wd oa).1.read df = st.read df ∧
     (process_excel_state st df dd dr wd oa).2 = process_excel (st.read df) dd dr wd oa) ∧
    ((get_detailed_mismatches_state st p e).1.read p = st.read p ∧
     (get_detailed_mismatches_state st p e).1.read e = st.read e ∧
     (get_detailed_mismatches_state st p e).2 =
       get_detailed_mismatches (st.read p) (st.read e)) ∧
    ((get_value_comparison_state st p e).1.read p = st.read p ∧
     (get_value_comparison_state st p e).1.read e = st.read e ∧
     (get_value_comparison_state st p e).2 =
       get_value_comparison (st.read p) (st.read e)) :=
  ⟨⟨process_excel_state_preserves st df dd dr wd oa hdf,
    process_excel_state_result st df dd dr wd oa⟩,
   ⟨gdm_state_preserves st p e p hp, gdm_state_preserves st p e e he,
    gdm_state_result st p e hp he⟩,
   ⟨gvc_state_preserves st p e p hp, gvc_state_preserves st p e e he,
    gvc_state_result st p e hp he⟩⟩



section
attribute [local semireducible] Rat.add Rat.mul Rat.sub Rat.inv

/-- Witness for C7 on a pair of one/two-row frames sharing one key. -/
theorem claim_C7_witness :
    ∃ recs : List MismatchRecord,
      recs = (processedTwoRows.rows.filter
          (fun r => decide (compositeKey defaultKeyColumns r ∉
            expectedSample.rows.map (compositeKey defaultKeyColumns)))).map
          (mkMismatchRecord "Extra in Processed") ++
        (expectedSample.rows.filter
          (fun r => decide (compositeKey defaultKeyColumns r ∉
            processedTwoRows.rows.map (compositeKey defaultKeyColumns)))).map
          (mkMismatchRecord "Missing in Processed") ∧
      get_detailed_mismatches processedTwoRows expectedSample =
        (if recs.isEmpty then .noMismatch else .mismatches recs) ∧
      (∀ r ∈ processedTwoRows.rows, compositeKey defaultKeyColumns r ∉
          expectedSample.rows.map (compositeKey defaultKeyColumns) →
        mkMismatchRecord "Extra in Processed" r ∈ recs) ∧
      (∀ r ∈ expectedSample.rows, compositeKey defaultKeyColumns r ∉
          processedTwoRows.rows.map (compositeKey defaultKeyColumns) →
        mkMismatchRecord "Missing in Processed" r ∈ recs) ∧
      (∀ rec ∈ recs, rec.mismatchType = "Extra in Processed" ∨
        rec.mismatchType = "Missing in Processed") ∧
      ((∀ r ∈ processedTwoRows.rows, compositeKey defaultKeyColumns r ∈
          expectedSample.rows.map (compositeKey defaultKeyColumns)) →
       (∀ r ∈ expectedSample.rows, compositeKey defaultKeyColumns r ∈
          processedTwoRows.rows.map (compositeKey defaultKeyColumns)) →
        get_detailed_mismatches processedTwoRows expectedSample = .noMismatch) :=
  claim_C7_detailed_mismatches processedTwoRows expectedSample (by decide)

/-- Witness for C8 on the same pair of frames. -/
theorem claim_C8_witness :
    ∃ common records,
      common = commonKeys (addCompositeKey defaultKeyColumns processedTwoRows)
        (addCompositeKey defaultKeyColumns expectedSample) ∧
      records = (common.take 100).flatMap
        (keyRecords (addCompositeKey defaultKeyColumns processedTwoRows)
          (addCompositeKey defaultKeyColumns expectedSample) defaultCompareColumns) ∧
      (common.take 100).length ≤ 100 ∧
      get_value_comparison processedTwoRows expectedSample =
        (if common.isEmpty then some .noMatchingRows
         else if records.isEmpty then some .allMatch
         else some (.comparisons records)) ∧
      (∀ pv ev pf ef, pv.notna = true → ev.notna = true →
        floatOf? pv = some pf → floatOf? ev = some ef →
        compareCell pv ev =
          (if (1 : Rat) / 100 < |pf - ef| then some (.num (round4 (pf - ef))) else none)) ∧
      (∀ pv ev, pv.notna = true → ev.notna = true →
        floatOf? pv = none ∨ floatOf? ev = none →
        compareCell pv ev =
          (if pv.astypeStr ≠ ev.astypeStr then some (.str "N/A") else none)) :=
  claim_C8_value_comparison processedTwoRows expectedSample
    ⟨by decide, by decide, by decide, by decide⟩

/-- Witness for C10 on a two-frame store. -/
theorem claim_C10_witness :
    ((process_excel_state sampleStore 0 150 (3/50) 31 300).1.read 0 = sampleStore.read 0 ∧
     (process_excel_state sampleStore 0 150 (3/50) 31 300).2 =
       process_excel (sampleStore.read 0) 150 (3/50) 31 300) ∧
    ((get_detailed_mismatches_state sampleStore 0 1).1.read 0 = sampleStore.read 0 ∧
     (get_detailed_mismatches_state sampleStore 0 1).1.read 1 = sampleStore.read 1 ∧
     (get_detailed_mismatches_state sampleStore 0 1).2 =
       get_detailed_mismatches (sampleStore.read 0) (sampleStore.read 1)) ∧
    ((get_value_comparison_state sampleStore 0 1).1.read 0 = sampleStore.read 0 ∧
     (get_value_comparison_state sampleStore 0 1).1.read 1 = sampleStore.read 1 ∧
     (get_value_comparison_state sampleStore 0 1).2 =
       get_value_comparison (sampleStore.read 0) (sampleStore.read 1)) :=
  claim_C10_no_input_mutation sampleStore 0 0 1 150 (3/50) 31 300
    (by decide) (by decide) (by decide)

end


end DebitNote
